import Mathlib

/-!
# Verification of the v6-omop-cohort-diagnostics algorithm package

Shallow embedding of `v6-omop-test/__init__.py`: the central orchestrator
(`central`), the participant worker (`cohort_diagnostics`) and the query
builder (`_create_cohort_query`).

Modelling conventions:
* Python integers are `Nat` (node ids, task ids, indices are nonnegative in
  the hosting runtime's metadata).
* Python f-string decimal formatting (`str(n)`, `f"{n:04d}"`, `f"{n:03d}"`,
  `f"{n:06d}"`) is modelled by explicit decimal-digit rendering (`natStr`,
  `pyFormat0d`).
* `float(s)` applied to a decimal digit string is modelled in two layers:
  `digitStrVal` is the exact numeric value of the digit string, and
  `pyFloatOfNat` is the IEEE-754 binary64 rounding of that value (the
  identity below 2^53, round-to-nearest-even above). The program stores the
  rounded value (`cohortIdFloatAt`); below 2^53 — the regime of the spec's
  documented bounds (task id ≤ 9999, index ≤ 999, node ids of up to 8
  digits) — it coincides with the exact concatenation value `cohortIdAt`.
* The external libraries (`ohdsi.circe`, `ohdsi.cohort_generator`,
  `ohdsi.feature_extraction`, `ohdsi.cohort_diagnostics`, pandas I/O) are
  abstract: pure functions bundled in `CirceLib` / `OhdsiEnv`, with the
  side-effecting calls recorded as an event trace (`WorkerEvent`).
* Fallible Python operations are `Except` / `Option`: `list[0]` on an empty
  list is `indexError`, a `pandas.DataFrame` built from columns of unequal
  length is `valueError`.
-/

namespace V6Omop

/-! ## Decimal rendering of nonnegative integers (models Python `str` / `format`) -/

/-- Little-endian decimal digits of `n`, with `fuel` bounding the recursion
(structural, hence kernel-evaluable); `decDigitsAux n n` is exact. -/
def decDigitsAux : Nat → Nat → List Nat
  | 0, _ => []
  | fuel + 1, n => if n = 0 then [] else n % 10 :: decDigitsAux fuel (n / 10)

/-- Little-endian decimal digits of `n` (empty for 0). -/
def decDigitsLE (n : Nat) : List Nat := decDigitsAux n n

/-- Big-endian decimal digits of `n`, as rendered by Python `str`
(`[0]` for 0). -/
def decDigitsBE (n : Nat) : List Nat :=
  if n = 0 then [0] else (decDigitsLE n).reverse

/-- The character rendering a single decimal digit. -/
def digitChar (d : Nat) : Char := Char.ofNat (48 + d)

/-- The characters of Python `str(n)` for a nonnegative integer `n`. -/
def decChars (n : Nat) : List Char := (decDigitsBE n).map digitChar

/-- Python `str(n)` for a nonnegative integer `n`. -/
def natStr (n : Nat) : String := String.mk (decChars n)

/-- Python `f"{n:0wd}"`: decimal rendering left-padded with `'0'` to width
`w` (never truncates). -/
def pyFormat0d (w n : Nat) : String :=
  String.mk (List.replicate (w - (decChars n).length) '0' ++ decChars n)

/-- Numeric value contributed by one character of a decimal digit string. -/
def charVal (c : Char) : Nat := c.toNat - 48

/-- Numeric value of a list of decimal digit characters (big-endian). -/
def charsVal (l : List Char) : Nat := l.foldl (fun a c => 10 * a + charVal c) 0

/-- The exact numeric value of a decimal digit string `s`: the real number
that Python `float(s)` rounds (see `pyFloatOfNat` for the rounding). -/
def digitStrVal (s : String) : Nat := charsVal s.data

/-- Number of binary digits of `n` (`0` for `0`), with the same fuel pattern
as `decDigitsAux`: the recursion halves `n`, so fuel `n` is ample and the
definition stays kernel-evaluable. -/
def bitLenAux : Nat → Nat → Nat
  | 0, _ => 0
  | fuel + 1, n => if n = 0 then 0 else bitLenAux fuel (n / 2) + 1

/-- Number of binary digits of `n`. -/
def bitLen (n : Nat) : Nat := bitLenAux n n

/-- IEEE-754 binary64 rounding of a nonnegative integer, as performed by
Python `float` on an integral value: the identity below `2^53`; above,
round to a multiple of the unit in the last place (`2^(bitLen v - 53)`)
with ties to even. (Float overflow at `2^1024` lies far beyond every value
this development evaluates and keeps the rounded-integer form here.) -/
def pyFloatOfNat (v : Nat) : Nat :=
  if v < 2 ^ 53 then v
  else
    let ulp := 2 ^ (bitLen v - 53)
    let q := v / ulp
    let r := v % ulp
    if 2 * r < ulp then q * ulp
    else if ulp < 2 * r then (q + 1) * ulp
    else if q % 2 = 0 then q * ulp else (q + 1) * ulp

/-- Python `float(s)` on a decimal digit string: the exact value, rounded. -/
def pyFloat (s : String) : Nat := pyFloatOfNat (digitStrVal s)

/-! ## Source: identifier derivation (lines 117-120 of `__init__.py`)

`cohort_ids = [float(f"{meta_run.node_id}{meta_run.task_id:04d}{i:03d}")
               for i in range(0, n)]` -/

/-- The exact value of the identifier the worker derives for work item `i`:
the number formed by `str(node_id) ++ f"{task_id:04d}" ++ f"{i:03d}"`. The
program stores its float rounding, `cohortIdFloatAt`; the two coincide
below `2^53`. -/
def cohortIdAt (node_id task_id i : Nat) : Nat :=
  digitStrVal (natStr node_id ++ pyFormat0d 4 task_id ++ pyFormat0d 3 i)

/-- The float value the program actually stores for work item `i`:
`float(f"{node_id}{task_id:04d}{i:03d}")`, rounding modelled. -/
def cohortIdFloatAt (node_id task_id i : Nat) : Nat :=
  pyFloat (natStr node_id ++ pyFormat0d 4 task_id ++ pyFormat0d 3 i)

/-- The list `cohort_ids` built by the worker for `n` cohort definitions. -/
def cohort_ids (node_id task_id n : Nat) : List Nat :=
  (List.range n).map (fun i => cohortIdAt node_id task_id i)

/-- The table namespace key `f"cohort_{meta_run.task_id}_{meta_run.node_id}"`
(line 136 of `__init__.py`). -/
def cohortTableName (task_id node_id : Nat) : String :=
  "cohort_" ++ natStr task_id ++ "_" ++ natStr node_id

/-- Decomposition of a derived identifier by the documented digit layout:
last 3 digits = item index, preceding 4 digits = task id, remaining leading
digits = node id. -/
def decomposeId (v : Nat) : Nat × Nat × Nat :=
  (v / 10000000, v / 1000 % 10000, v % 1000)

/-! ## Digit-machinery lemmas -/

theorem decDigitsAux_digits_lt : ∀ fuel n, ∀ d ∈ decDigitsAux fuel n, d < 10 := by
  intro fuel
  induction fuel with
  | zero => intro n d hd; simp [decDigitsAux] at hd
  | succ fuel ih =>
      intro n d hd
      by_cases h0 : n = 0
      · simp [decDigitsAux, h0] at hd
      · simp only [decDigitsAux, if_neg h0, List.mem_cons] at hd
        rcases hd with h | h
        · subst h; exact Nat.mod_lt _ (by omega)
        · exact ih _ _ h

/-- Big-endian Horner value of a digit list. -/
def valBE (l : List Nat) : Nat := l.foldl (fun a d => 10 * a + d) 0

/-- Little-endian Horner value of a digit list. -/
def valLE (l : List Nat) : Nat := l.foldr (fun d a => d + 10 * a) 0

theorem valLE_decDigitsAux : ∀ fuel n, n ≤ fuel → valLE (decDigitsAux fuel n) = n := by
  intro fuel
  induction fuel with
  | zero => intro n h; interval_cases n; simp [decDigitsAux, valLE]
  | succ fuel ih =>
      intro n h
      by_cases h0 : n = 0
      · simp [decDigitsAux, h0, valLE]
      · have hdiv : n / 10 ≤ fuel := by
          have : n / 10 < n := Nat.div_lt_self (by omega) (by omega)
          omega
        simp only [decDigitsAux, if_neg h0, valLE, List.foldr_cons]
        have := ih (n / 10) hdiv
        simp only [valLE] at this
        rw [this]
        omega

theorem valBE_foldl (l : List Nat) :
    ∀ a, l.foldl (fun a d => 10 * a + d) a = a * 10 ^ l.length + valBE l := by
  induction l with
  | nil => intro a; simp [valBE]
  | cons d l ih =>
      intro a
      simp only [List.foldl_cons, List.length_cons, valBE, Nat.mul_zero,
        Nat.zero_add] at *
      rw [ih (10 * a + d), ih d]
      ring

theorem valBE_append (l1 l2 : List Nat) :
    valBE (l1 ++ l2) = valBE l1 * 10 ^ l2.length + valBE l2 := by
  simp only [valBE, List.foldl_append]
  exact valBE_foldl l2 _

theorem valBE_reverse : ∀ l : List Nat, valBE l.reverse = valLE l := by
  intro l
  induction l with
  | nil => rfl
  | cons d l ih =>
      simp only [List.reverse_cons, valBE_append, ih, valLE, List.foldr_cons]
      simp [valBE]
      ring

theorem valBE_decDigitsBE (n : Nat) : valBE (decDigitsBE n) = n := by
  by_cases h0 : n = 0
  · simp [h0, decDigitsBE, valBE]
  · rw [decDigitsBE, if_neg h0, valBE_reverse, decDigitsLE,
      valLE_decDigitsAux n n (le_refl n)]

theorem decDigitsAux_length : ∀ fuel n k, n < 10 ^ k →
    (decDigitsAux fuel n).length ≤ k := by
  intro fuel
  induction fuel with
  | zero => intro n k _; simp [decDigitsAux]
  | succ fuel ih =>
      intro n k hk
      by_cases h0 : n = 0
      · simp [decDigitsAux, h0]
      · have hkpos : k ≠ 0 := by
          intro h; rw [h] at hk; simp at hk; exact h0 hk
        obtain ⟨k', rfl⟩ : ∃ k', k = k' + 1 := ⟨k - 1, by omega⟩
        simp only [decDigitsAux, if_neg h0, List.length_cons]
        have : n / 10 < 10 ^ k' := by
          rw [Nat.div_lt_iff_lt_mul (by omega)]
          calc n < 10 ^ (k' + 1) := hk
            _ = 10 ^ k' * 10 := by ring
        have := ih (n / 10) k' this
        omega

theorem decDigitsBE_length (n k : Nat) (hk : 1 ≤ k) (h : n < 10 ^ k) :
    (decDigitsBE n).length ≤ k := by
  by_cases h0 : n = 0
  · simp [h0, decDigitsBE]; omega
  · rw [decDigitsBE, if_neg h0, List.length_reverse]
    exact decDigitsAux_length n n k h

theorem decDigitsBE_digits_lt (n : Nat) : ∀ d ∈ decDigitsBE n, d < 10 := by
  intro d hd
  by_cases h0 : n = 0
  · simp [decDigitsBE, h0] at hd; omega
  · rw [decDigitsBE, if_neg h0, List.mem_reverse] at hd
    exact decDigitsAux_digits_lt n n d hd

theorem charVal_digitChar (d : Nat) (h : d < 10) : charVal (digitChar d) = d := by
  interval_cases d <;> rfl

theorem charsVal_map_digitChar (l : List Nat) (h : ∀ d ∈ l, d < 10) :
    charsVal (l.map digitChar) = valBE l := by
  have key : ∀ (l : List Nat), (∀ d ∈ l, d < 10) → ∀ a,
      List.foldl (fun a c => 10 * a + charVal c) a (l.map digitChar)
        = List.foldl (fun a d => 10 * a + d) a l := by
    intro l
    induction l with
    | nil => intro _ _; rfl
    | cons d l ih =>
        intro h a
        simp only [List.map_cons, List.foldl_cons]
        rw [charVal_digitChar d (h d (by simp))]
        exact ih (fun d hd => h d (by simp [hd])) _
  exact key l h 0

theorem charsVal_decChars (n : Nat) : charsVal (decChars n) = n := by
  rw [decChars, charsVal_map_digitChar _ (decDigitsBE_digits_lt n),
    valBE_decDigitsBE]

theorem charsVal_append (l1 l2 : List Char) :
    charsVal (l1 ++ l2) = charsVal l1 * 10 ^ l2.length + charsVal l2 := by
  simp only [charsVal, List.foldl_append]
  have hshift : ∀ (l : List Char) a,
      l.foldl (fun a c => 10 * a + charVal c) a
        = a * 10 ^ l.length + l.foldl (fun a c => 10 * a + charVal c) 0 := by
    intro l
    induction l with
    | nil => intro a; simp
    | cons c l ih =>
        intro a
        simp only [List.foldl_cons, List.length_cons, Nat.mul_zero, Nat.zero_add]
        rw [ih (10 * a + charVal c), ih (charVal c)]
        ring
  rw [hshift l2]

theorem charsVal_replicate_zero (k : Nat) :
    charsVal (List.replicate k '0') = 0 := by
  induction k with
  | zero => rfl
  | succ k ih =>
      rw [List.replicate_succ]
      show charsVal ([('0' : Char)] ++ List.replicate k '0') = 0
      rw [charsVal_append, ih, Nat.add_zero]
      have h0 : charsVal ['0'] = 0 := by decide
      rw [h0, Nat.zero_mul]

theorem data_append (s t : String) : (s ++ t).data = s.data ++ t.data := rfl

theorem natStr_data (n : Nat) : (natStr n).data = decChars n := rfl

theorem pyFormat0d_data (w n : Nat) :
    (pyFormat0d w n).data
      = List.replicate (w - (decChars n).length) '0' ++ decChars n := rfl

theorem digitStrVal_pyFormat0d (w n : Nat) : digitStrVal (pyFormat0d w n) = n := by
  rw [digitStrVal, pyFormat0d_data, charsVal_append, charsVal_replicate_zero,
    Nat.zero_mul, Nat.zero_add, charsVal_decChars]

theorem decChars_length_le (n k : Nat) (hk : 1 ≤ k) (h : n < 10 ^ k) :
    (decChars n).length ≤ k := by
  rw [decChars, List.length_map]; exact decDigitsBE_length n k hk h

theorem pyFormat0d_data_length (w n : Nat) (h : (decChars n).length ≤ w) :
    (pyFormat0d w n).data.length = w := by
  rw [pyFormat0d_data, List.length_append, List.length_replicate]; omega

/-- Value of a derived identifier within the documented bounds: the digit
concatenation places the node id at the 10^7 position and the task id at the
10^3 position. -/
theorem cohortIdAt_eq (node_id task_id i : Nat)
    (ht : task_id < 10000) (hi : i < 1000) :
    cohortIdAt node_id task_id i = node_id * 10000000 + task_id * 1000 + i := by
  have h4 : (decChars task_id).length ≤ 4 :=
    decChars_length_le task_id 4 (by norm_num)
      (lt_of_lt_of_eq ht (by norm_num))
  have h3 : (decChars i).length ≤ 3 :=
    decChars_length_le i 3 (by norm_num)
      (lt_of_lt_of_eq hi (by norm_num))
  rw [cohortIdAt, digitStrVal, data_append, data_append, charsVal_append,
    charsVal_append, natStr_data, charsVal_decChars]
  rw [show charsVal (pyFormat0d 4 task_id).data = task_id from
    digitStrVal_pyFormat0d 4 task_id]
  rw [show charsVal (pyFormat0d 3 i).data = i from digitStrVal_pyFormat0d 3 i]
  rw [pyFormat0d_data_length 4 task_id h4, pyFormat0d_data_length 3 i h3]
  norm_num
  ring

/-! ## Source: the central orchestrator (`central`, lines 30-98)

`central` resolves the participant set from the client, validates an explicit
selector against it, creates one task carrying the four kwargs, waits once
for the results and returns them. The `info(...)` progress notifications are
observability-only and are not modelled. -/

/-- One element of `client.organization.list()`. -/
structure Organization where
  id : Int
deriving DecidableEq

/-- The value bound to `organizations_to_include`: either a Python string
(the sentinel is the string `"ALL"`) or a list of organization ids. -/
inductive OrgSelector where
  | str (s : String)
  | ids (l : List Int)
deriving DecidableEq

/-- Python `set(organizations_to_include).issubset(set(ids))`. Iterating a
string yields its characters, and a character never equals an integer under
Python `==`, so every membership test on a string element is `false`. -/
def pySubset (sel : OrgSelector) (ids : List Int) : Bool :=
  match sel with
  | .str s => s.data.all (fun _ => false)
  | .ids l => l.all (fun x => ids.contains x)

/-- The slice of the vantage6 `AlgorithmClient` the orchestrator consumes:
the known organizations, the id the server assigns to the created task, and
the value `wait_for_results` returns for it. `ρ` is the opaque type of the
collected result list. -/
structure AlgorithmClient (ρ : Type) where
  organizations : List Organization
  taskId : Nat
  results : ρ
deriving DecidableEq

/-- One `client.task.create` call: the method name, the four kwargs
(`α β γ δ` are the opaque payload types) and the targeted organizations. -/
structure TaskCreate (α β γ δ : Type) where
  method : String
  cohort_definitions : α
  cohort_names : β
  temporal_covariate_settings : γ
  diagnostics_settings : δ
  organizations : OrgSelector
deriving DecidableEq

/-- What `central` returns: the error dict `{"msg": ...}` or the collected
results. -/
inductive CentralResult (ρ : Type) where
  | errorMsg (msg : String)
  | ok (results : ρ)
deriving DecidableEq

/-- Observable behaviour of one `central` call: the task-creation calls made,
the task ids waited on, and the returned value. -/
structure CentralTrace (α β γ δ ρ : Type) where
  created : List (TaskCreate α β γ δ)
  waited : List Nat
  result : CentralResult ρ
deriving DecidableEq

/-- The straight-line tail of `central` after selector validation (lines
77-98): one `task.create`, one `wait_for_results`, results returned. -/
def centralDispatch {α β γ δ ρ : Type} (client : AlgorithmClient ρ)
    (cohort_definitions : α) (cohort_names : β)
    (temporal_covariate_settings : γ) (diagnostics_settings : δ)
    (ids : OrgSelector) : CentralTrace α β γ δ ρ :=
  { created := [{ method := "cohort_diagnostics"
                  cohort_definitions := cohort_definitions
                  cohort_names := cohort_names
                  temporal_covariate_settings := temporal_covariate_settings
                  diagnostics_settings := diagnostics_settings
                  organizations := ids }]
    waited := [client.taskId]
    result := .ok client.results }

/-- The orchestrator `central` (lines 30-98). The three branches mirror the
source: the sentinel comparison `organizations_to_include != "ALL"`, the
subset pre-check with its early error return (lines 66-75, including the
reassignment `ids = organizations_to_include`), then dispatch. -/
def central {α β γ δ ρ : Type} (client : AlgorithmClient ρ)
    (cohort_definitions : α) (cohort_names : β)
    (temporal_covariate_settings : γ) (diagnostics_settings : δ)
    (organizations_to_include : OrgSelector) : CentralTrace α β γ δ ρ :=
  let ids := (client.organizations.map Organization.id)
  if organizations_to_include = OrgSelector.str "ALL" then
    centralDispatch client cohort_definitions cohort_names
      temporal_covariate_settings diagnostics_settings (OrgSelector.ids ids)
  else if pySubset organizations_to_include ids then
    centralDispatch client cohort_definitions cohort_names
      temporal_covariate_settings diagnostics_settings organizations_to_include
  else
    { created := []
      waited := []
      result := .errorMsg
        "You specified an organization that is not part of the collaboration" }

/-- Models calling `central` without the optional argument: the Python
signature declares `organizations_to_include="ALL"` as the default. -/
def centralDefault {α β γ δ ρ : Type} (client : AlgorithmClient ρ)
    (cohort_definitions : α) (cohort_names : β)
    (temporal_covariate_settings : γ) (diagnostics_settings : δ) :
    CentralTrace α β γ δ ρ :=
  central client cohort_definitions cohort_names temporal_covariate_settings
    diagnostics_settings (OrgSelector.str "ALL")

/-! ## Source: the query builder (`_create_cohort_query`, lines 194-210) -/

/-- The slice of `ohdsi.circe` the package consumes, as pure functions over
opaque types: `J` = cohort definition payload, `E` = parsed cohort
expression, `O` = generation options. -/
structure CirceLib (J E O : Type) where
  cohort_expression_from_json : J → E
  create_generate_options : Bool → O
  build_cohort_query : E → O → List String

/-- The query builder (lines 194-210): parse the definition, build options
with `generate_stats=True`, take element `[0]` of the generated query list
(`none` models the `IndexError` raised on an empty list). -/
def _create_cohort_query {J E O : Type} (circe : CirceLib J E O)
    (cohort_definition : J) : Option String :=
  let cohort_expression := circe.cohort_expression_from_json cohort_definition
  let options := circe.create_generate_options true
  (circe.build_cohort_query cohort_expression options)[0]?

/-! ## Source: the worker (`cohort_diagnostics`, lines 101-191) -/

/-- One row of the `cohort_definition_set` DataFrame (lines 123-132).
`cohortId` carries the identifier's numeric value (the exact concatenation
value `cohortIdAt`, with which the stored float coincides below `2^53`);
`logicDescription` is `None` in the source. -/
structure CohortDefRow (J : Type) where
  cohortId : Nat
  cohortName : String
  json : J
  sql : String
  logicDescription : Option String
  generateStats : Bool
deriving DecidableEq

/-- Collects a list of optional values; `none` as soon as one element is
`none` (models a list comprehension whose body may raise). -/
def allSome {A : Type} : List (Option A) → Option (List A)
  | [] => some []
  | none :: _ => none
  | some a :: l => (allSome l).map (fun l' => a :: l')

/-- Positional alignment of the DataFrame columns into rows, as
`pandas.DataFrame` does for equal-length list columns. -/
def mkRows {J : Type} : List Nat → List String → List J → List String →
    List (CohortDefRow J)
  | id :: ids, nm :: nms, d :: ds, q :: qs =>
      ⟨id, nm, d, q, none, true⟩ :: mkRows ids nms ds qs
  | _, _, _, _ => []

/-- The Python exceptions the worker's construction step can raise:
`IndexError` from `[0]` on an empty query list, `ValueError` from
`pandas.DataFrame` when the columns have unequal lengths. -/
inductive PyError where
  | valueError
  | indexError
deriving DecidableEq

/-- The construction of the `cohort_definition_set` DataFrame (lines
117-132): the `sql` column comprehension is evaluated first (its failure is
an `IndexError`), then the DataFrame constructor checks that all columns —
only `cohortName` can deviate — have the same length `n`. -/
def cohort_definition_set {J E O : Type} (circe : CirceLib J E O)
    (node_id task_id : Nat) (cohort_definitions : List J)
    (cohort_names : List String) : Except PyError (List (CohortDefRow J)) :=
  let n := cohort_definitions.length
  match allSome (cohort_definitions.map
      (fun c => _create_cohort_query circe c)) with
  | none => .error .indexError
  | some sqls =>
      if cohort_names.length = n then
        .ok (mkRows (cohort_ids node_id task_id n) cohort_names
          cohort_definitions sqls)
      else .error .valueError

/-- `RunMetaData` supplied by the hosting runtime. -/
structure RunMetaData where
  node_id : Nat
  task_id : Nat
deriving DecidableEq

/-- `OHDSIMetaData` supplied by the hosting runtime. -/
structure OHDSIMetaData where
  cdm_schema : String
  results_schema : String
  export_folder : String
deriving DecidableEq

/-- `pathlib`-style path join. -/
def pathJoin (a b : String) : String := a ++ "/" ++ b

/-- The slice of the external OHDSI libraries the worker consumes. `TC` is
the caller's temporal-settings bundle, `TCO` the library's constructed
settings object, `TN` the table-name collection, `Df` a pandas DataFrame. -/
structure OhdsiEnv (J E O TC TCO TN Df : Type) where
  circe : CirceLib J E O
  get_cohort_table_names : String → TN
  create_temporal_covariate_settings : TC → TCO
  read_csv : String → Df
  to_json : Df → String

/-- The side-effecting external calls the worker makes, in order, with the
arguments the source passes (the `Conn`-typed database connection included).
`ohdsi_common.convert_to_r` is a representation conversion and is modelled
as the identity on the row list. -/
inductive WorkerEvent (J Conn TCO TN DS : Type) where
  | createCohortTables (connection : Conn) (cohort_database_schema : String)
      (cohort_table_names : TN)
  | generateCohortSet (connection : Conn) (cdm_database_schema : String)
      (cohort_database_schema : String) (cohort_table_names : TN)
      (cohort_definition_set : List (CohortDefRow J))
  | executeDiagnostics (cohort_definition_set : List (CohortDefRow J))
      (export_folder : String) (database_id : Nat) (database_name : String)
      (database_description : String) (cohort_database_schema : String)
      (connection : Conn) (cdm_database_schema : String)
      (cohort_table : String) (cohort_table_names : TN)
      (vocabulary_database_schema : String) (cohort_ids : Option (List Nat))
      (cdm_version : Nat) (temporal_covariate_settings : TCO)
      (diagnostics_settings : DS)
  | readCsv (path : String)

/-- Observable behaviour of one worker invocation: the external calls made
and the returned value (`Except` models an uncaught Python exception). -/
structure WorkerRun (J Conn TCO TN DS : Type) where
  events : List (WorkerEvent J Conn TCO TN DS)
  result : Except PyError String

/-- The worker `cohort_diagnostics` (lines 101-191): build the work-item
description table, derive the table namespace, create the cohort tables,
generate the cohort set, expand the temporal settings, run the diagnostics
with `database_name = f"{task_id:06d}"`, `database_description = "todo"`,
`cohort_ids=None` and `cdm_version=5`, then read back
`export_folder / "exports" / "incidence_rate.csv"` and return its
`to_json()` serialization. -/
def cohort_diagnostics {J E O TC TCO TN Df Conn DS : Type}
    (env : OhdsiEnv J E O TC TCO TN Df) (connection : Conn)
    (meta_omop : OHDSIMetaData) (meta_run : RunMetaData)
    (cohort_definitions : List J) (cohort_names : List String)
    (temporal_covariate_settings : TC) (diagnostics_settings : DS) :
    WorkerRun J Conn TCO TN DS :=
  match cohort_definition_set env.circe meta_run.node_id meta_run.task_id
      cohort_definitions cohort_names with
  | .error e => { events := [], result := .error e }
  | .ok rows =>
      let cohort_table := cohortTableName meta_run.task_id meta_run.node_id
      let cohort_table_names := env.get_cohort_table_names cohort_table
      let tcs := env.create_temporal_covariate_settings
        temporal_covariate_settings
      let exports := pathJoin meta_omop.export_folder "exports"
      let csv := pathJoin exports "incidence_rate.csv"
      { events := [
          .createCohortTables connection meta_omop.results_schema
            cohort_table_names,
          .generateCohortSet connection meta_omop.cdm_schema
            meta_omop.results_schema cohort_table_names rows,
          .executeDiagnostics rows exports meta_run.task_id
            (pyFormat0d 6 meta_run.task_id) "todo" meta_omop.results_schema
            connection meta_omop.cdm_schema cohort_table cohort_table_names
            meta_omop.cdm_schema none 5 tcs diagnostics_settings,
          .readCsv csv]
        result := .ok (env.to_json (env.read_csv csv)) }

/-- The path read by a `readCsv` event, if any. -/
def readPath {J Conn TCO TN DS : Type} :
    WorkerEvent J Conn TCO TN DS → Option String
  | .readCsv p => some p
  | .createCohortTables .. => none
  | .generateCohortSet .. => none
  | .executeDiagnostics .. => none

/-- Whether an event is the `execute_diagnostics` call. -/
def isExecuteDiagnostics {J Conn TCO TN DS : Type} :
    WorkerEvent J Conn TCO TN DS → Bool
  | .executeDiagnostics .. => true
  | .createCohortTables .. => false
  | .generateCohortSet .. => false
  | .readCsv _ => false

/-! ## Claim theorems -/

/-- C4: identifier derivation is injective for node id 7 over task ids in
`[0, 9999]` and indices in `[0, 999]`. -/
theorem claim_C4 (t1 t2 i1 i2 : Nat) (ht1 : t1 ≤ 9999) (ht2 : t2 ≤ 9999)
    (hi1 : i1 ≤ 999) (hi2 : i2 ≤ 999)
    (h : cohortIdAt 7 t1 i1 = cohortIdAt 7 t2 i2) : t1 = t2 ∧ i1 = i2 := by
  rw [cohortIdAt_eq 7 t1 i1 (by omega) (by omega),
    cohortIdAt_eq 7 t2 i2 (by omega) (by omega)] at h
  omega

theorem claim_C4_witness : (12 : Nat) = 12 ∧ (7 : Nat) = 7 :=
  claim_C4 12 12 7 7 (by decide) (by decide) (by decide) (by decide) rfl

/-- C5 counterexample: the round-trip fails as stated at node id 900719925,
task id 4740, index 993 (task and index inside their documented bounds).
The concatenated digit string is `"9007199254740993"`, the exact value
`2^53 + 1`; the Python float rounds it to `9007199254740992.0` (ties to
even), and decomposing the stored identifier by the documented digit layout
yields index 992 instead of 993. -/
theorem claim_C5_counterexample :
    cohortIdAt 900719925 4740 993 = 9007199254740993
    ∧ cohortIdFloatAt 900719925 4740 993 = 9007199254740992
    ∧ decomposeId (cohortIdFloatAt 900719925 4740 993)
      = (900719925, 4740, 992)
    ∧ decomposeId (cohortIdFloatAt 900719925 4740 993)
      ≠ (900719925, 4740, 993) := by
  decide

/-- C5 (amended): for every node id, task id in `[0, 9999]` and index in
`[0, 999]` whose concatenated identifier value stays below `2^53` — the
regime where the stored float is exact, left only by node ids of 9 or more
digits — the stored float identifier equals the exact concatenation value,
and decomposing it by the documented digit layout (last 3 digits = index,
preceding 4 digits = task id, leading digits = node id) recovers the
original triple. -/
theorem claim_C5 (node_id task_id i : Nat) (ht : task_id ≤ 9999)
    (hi : i ≤ 999) (hexact : cohortIdAt node_id task_id i < 2 ^ 53) :
    cohortIdFloatAt node_id task_id i = cohortIdAt node_id task_id i
    ∧ decomposeId (cohortIdFloatAt node_id task_id i)
      = (node_id, task_id, i) := by
  have heq : cohortIdFloatAt node_id task_id i
      = cohortIdAt node_id task_id i := by
    show pyFloatOfNat (cohortIdAt node_id task_id i)
      = cohortIdAt node_id task_id i
    simp only [pyFloatOfNat]
    rw [if_pos hexact]
  refine ⟨heq, ?_⟩
  rw [heq, cohortIdAt_eq node_id task_id i (by omega) (by omega)]
  simp only [decomposeId, Prod.mk.injEq]
  refine ⟨?_, ?_, ?_⟩ <;> omega

theorem claim_C5_witness :
    cohortIdFloatAt 12 34 1 = cohortIdAt 12 34 1
    ∧ decomposeId (cohortIdFloatAt 12 34 1) = (12, 34, 1) :=
  claim_C5 12 34 1 (by decide) (by decide) (by decide)

/-- C1: whenever the selector is the sentinel `"ALL"` or a subset of the
known organization ids, `central` makes exactly one task-creation call,
targeted at the resolved participant set, with method name
`"cohort_diagnostics"` and kwargs exactly the four inputs unmodified. -/
theorem claim_C1 {α β γ δ ρ : Type} (client : AlgorithmClient ρ)
    (cohort_definitions : α) (cohort_names : β)
    (temporal_covariate_settings : γ) (diagnostics_settings : δ)
    (sel : OrgSelector)
    (h : sel = OrgSelector.str "ALL" ∨
      ∃ l, sel = OrgSelector.ids l ∧
        ∀ x ∈ l, x ∈ client.organizations.map Organization.id) :
    (central client cohort_definitions cohort_names
        temporal_covariate_settings diagnostics_settings sel).created
      = [{ method := "cohort_diagnostics"
           cohort_definitions := cohort_definitions
           cohort_names := cohort_names
           temporal_covariate_settings := temporal_covariate_settings
           diagnostics_settings := diagnostics_settings
           organizations :=
             if sel = OrgSelector.str "ALL" then
               OrgSelector.ids (client.organizations.map Organization.id)
             else sel }] := by
  rcases h with h | ⟨l, rfl, hsub⟩
  · subst h
    simp [central, centralDispatch]
  · have hpy : pySubset (OrgSelector.ids l)
        (client.organizations.map Organization.id) = true := by
      simp only [pySubset, List.all_eq_true]
      intro x hx
      exact List.elem_eq_true_of_mem (hsub x hx)
    simp [central, centralDispatch, hpy]

theorem claim_C1_witness :
    (central (⟨[⟨1⟩, ⟨2⟩, ⟨3⟩], 5, 0⟩ : AlgorithmClient Nat)
        (10 : Nat) (20 : Nat) (30 : Nat) (40 : Nat)
        (OrgSelector.ids [1, 2])).created
      = [{ method := "cohort_diagnostics"
           cohort_definitions := 10
           cohort_names := 20
           temporal_covariate_settings := 30
           diagnostics_settings := 40
           organizations :=
             if OrgSelector.ids [1, 2] = OrgSelector.str "ALL" then
               OrgSelector.ids
                 ((⟨[⟨1⟩, ⟨2⟩, ⟨3⟩], 5, 0⟩ :
                   AlgorithmClient Nat).organizations.map Organization.id)
             else OrgSelector.ids [1, 2] }] :=
  claim_C1 _ _ _ _ _ _ (Or.inr ⟨[1, 2], rfl, by decide⟩)

/-- C2: for every selector that is neither the sentinel nor a subset of the
known organization ids, `central` creates zero tasks, performs no wait and
returns the structured error message. -/
theorem claim_C2 {α β γ δ ρ : Type} (client : AlgorithmClient ρ)
    (cohort_definitions : α) (cohort_names : β)
    (temporal_covariate_settings : γ) (diagnostics_settings : δ)
    (sel : OrgSelector) (hne : sel ≠ OrgSelector.str "ALL")
    (hsub : pySubset sel (client.organizations.map Organization.id) = false) :
    central client cohort_definitions cohort_names
        temporal_covariate_settings diagnostics_settings sel
      = { created := []
          waited := []
          result := .errorMsg
            "You specified an organization that is not part of the collaboration" } := by
  simp [central, hne, hsub]

theorem claim_C2_witness :
    central (⟨[⟨1⟩, ⟨2⟩, ⟨3⟩], 5, 0⟩ : AlgorithmClient Nat)
        (10 : Nat) (20 : Nat) (30 : Nat) (40 : Nat) (OrgSelector.ids [99])
      = { created := []
          waited := []
          result := .errorMsg
            "You specified an organization that is not part of the collaboration" } :=
  claim_C2 _ _ _ _ _ _ (by decide) (by decide)

/-- C10: the sentinel is recognized only by exact, case-sensitive equality
with `"ALL"` (which is also the default selector); the lowercase string
`"all"` is treated as an explicit inclusion selector, fails the subset check
against integer organization ids, and yields the structured error instead of
a dispatch to the full set. -/
theorem claim_C10 {α β γ δ ρ : Type} (client : AlgorithmClient ρ)
    (cohort_definitions : α) (cohort_names : β)
    (temporal_covariate_settings : γ) (diagnostics_settings : δ) :
    centralDefault client cohort_definitions cohort_names
        temporal_covariate_settings diagnostics_settings
      = central client cohort_definitions cohort_names
          temporal_covariate_settings diagnostics_settings
          (OrgSelector.str "ALL")
    ∧ (central client cohort_definitions cohort_names
        temporal_covariate_settings diagnostics_settings
        (OrgSelector.str "all")).created = []
    ∧ (central client cohort_definitions cohort_names
        temporal_covariate_settings diagnostics_settings
        (OrgSelector.str "all")).result
      = .errorMsg
          "You specified an organization that is not part of the collaboration"
    ∧ (central client cohort_definitions cohort_names
        temporal_covariate_settings diagnostics_settings
        (OrgSelector.str "ALL")).created
      = [{ method := "cohort_diagnostics"
           cohort_definitions := cohort_definitions
           cohort_names := cohort_names
           temporal_covariate_settings := temporal_covariate_settings
           diagnostics_settings := diagnostics_settings
           organizations :=
             OrgSelector.ids (client.organizations.map Organization.id) }] := by
  have hne : OrgSelector.str "all" ≠ OrgSelector.str "ALL" := by decide
  have hall : pySubset (OrgSelector.str "all")
      (client.organizations.map Organization.id) = false := by
    show ("all".data.all (fun _ => false)) = false
    decide
  refine ⟨rfl, ?_, ?_, ?_⟩
  · simp [central, hne, hall]
  · simp [central, hne, hall]
  · simp [central, centralDispatch]

/-- C8: the query builder is deterministic — equal definitions yield equal
query text — and its value is the first artifact of the query sequence
generated with statistics collection forced on. -/
theorem claim_C8 {J E O : Type} (circe : CirceLib J E O) (d1 d2 : J)
    (h : d1 = d2) :
    _create_cohort_query circe d1 = _create_cohort_query circe d2
    ∧ _create_cohort_query circe d1
      = (circe.build_cohort_query (circe.cohort_expression_from_json d1)
          (circe.create_generate_options true))[0]? := by
  subst h
  exact ⟨rfl, rfl⟩

/-- A concrete instantiation of the external circe interface, used by the
executable witnesses. -/
def circeNat : CirceLib Nat Nat Bool :=
  { cohort_expression_from_json := fun n => n + 1
    create_generate_options := fun b => b
    build_cohort_query := fun e _ => [natStr e] }

theorem claim_C8_witness :
    _create_cohort_query circeNat 3 = _create_cohort_query circeNat 3
    ∧ _create_cohort_query circeNat 3
      = (circeNat.build_cohort_query (circeNat.cohort_expression_from_json 3)
          (circeNat.create_generate_options true))[0]? :=
  claim_C8 circeNat 3 3 rfl

/-! ## Worker construction lemmas -/

theorem allSome_map_some {A B : Type} (f : A → Option B) :
    ∀ l : List A, (∀ x ∈ l, (f x).isSome) →
      ∃ l', allSome (l.map f) = some l' ∧ l'.length = l.length ∧
        ∀ i : Nat, l'[i]? = (l[i]?.bind f) := by
  intro l
  induction l with
  | nil =>
      intro _
      exact ⟨[], rfl, rfl, fun i => by simp⟩
  | cons x l ih =>
      intro h
      obtain ⟨b, hb⟩ := Option.isSome_iff_exists.mp (h x (by simp))
      obtain ⟨l', hall, hlen, hidx⟩ := ih (fun y hy => h y (by simp [hy]))
      refine ⟨b :: l', ?_, by simp [hlen], ?_⟩
      · simp [allSome, hb, hall]
      · intro i
        cases i with
        | zero => simp [hb]
        | succ i => simpa using hidx i

theorem mkRows_getElem? {J : Type} :
    ∀ (ids : List Nat) (nms : List String) (ds : List J) (qs : List String)
      (i : Nat) (id : Nat) (nm : String) (d : J) (q : String),
      ids[i]? = some id → nms[i]? = some nm → ds[i]? = some d →
      qs[i]? = some q →
      (mkRows ids nms ds qs)[i]? = some ⟨id, nm, d, q, none, true⟩ := by
  intro ids
  induction ids with
  | nil => intro nms ds qs i id nm d q h1 _ _ _; simp at h1
  | cons id0 ids ih =>
      intro nms ds qs i id nm d q h1 h2 h3 h4
      cases nms with
      | nil => simp at h2
      | cons nm0 nms =>
        cases ds with
        | nil => simp at h3
        | cons d0 ds =>
          cases qs with
          | nil => simp at h4
          | cons q0 qs =>
            cases i with
            | zero =>
                simp only [List.getElem?_cons_zero, Option.some.injEq]
                  at h1 h2 h3 h4
                subst h1; subst h2; subst h3; subst h4
                simp [mkRows]
            | succ i =>
                simp only [mkRows, List.getElem?_cons_succ] at *
                exact ih nms ds qs i id nm d q h1 h2 h3 h4

theorem mkRows_length {J : Type} :
    ∀ (ids : List Nat) (nms : List String) (ds : List J) (qs : List String),
      ids.length = ds.length → nms.length = ds.length →
      qs.length = ds.length →
      (mkRows ids nms ds qs).length = ds.length := by
  intro ids
  induction ids with
  | nil =>
      intro nms ds qs h1 _ _
      cases ds with
      | nil => rfl
      | cons d ds => simp at h1
  | cons id0 ids ih =>
      intro nms ds qs h1 h2 h3
      cases ds with
      | nil => simp at h1
      | cons d0 ds =>
        cases nms with
        | nil => simp at h2
        | cons nm0 nms =>
          cases qs with
          | nil => simp at h3
          | cons q0 qs =>
            simp only [mkRows, List.length_cons]
            rw [ih nms ds qs (by simpa using h1) (by simpa using h2)
              (by simpa using h3)]

/-- C6: for `n` cohort definitions with matching names, the worker builds
exactly `n` work-item descriptions, each pairing the derived identifier, the
supplied display name, the original definition payload and a query generated
by the query builder, with `generateStats = true` and no per-item logic
description. -/
theorem claim_C6 {J E O : Type} (circe : CirceLib J E O)
    (node_id task_id : Nat) (cohort_definitions : List J)
    (cohort_names : List String)
    (hlen : cohort_names.length = cohort_definitions.length)
    (hq : ∀ d ∈ cohort_definitions, (_create_cohort_query circe d).isSome) :
    ∃ rows,
      cohort_definition_set circe node_id task_id cohort_definitions
          cohort_names = .ok rows
      ∧ rows.length = cohort_definitions.length
      ∧ ∀ i, i < cohort_definitions.length →
          ∃ d nm q, cohort_definitions[i]? = some d
            ∧ cohort_names[i]? = some nm
            ∧ _create_cohort_query circe d = some q
            ∧ rows[i]?
              = some ⟨cohortIdAt node_id task_id i, nm, d, q, none, true⟩ := by
  obtain ⟨sqls, hall, hslen, hsidx⟩ :=
    allSome_map_some (fun c => _create_cohort_query circe c)
      cohort_definitions hq
  have hset : cohort_definition_set circe node_id task_id cohort_definitions
      cohort_names
      = .ok (mkRows (cohort_ids node_id task_id cohort_definitions.length)
          cohort_names cohort_definitions sqls) := by
    simp [cohort_definition_set, hall, hlen]
  refine ⟨_, hset, ?_, ?_⟩
  · exact mkRows_length _ _ _ _ (by simp [cohort_ids]) hlen hslen
  · intro i hi
    have hi' : i < cohort_names.length := by omega
    have hd : cohort_definitions[i]? = some cohort_definitions[i] :=
      List.getElem?_eq_getElem hi
    have hnm : cohort_names[i]? = some cohort_names[i] :=
      List.getElem?_eq_getElem hi'
    obtain ⟨q, hqd⟩ :=
      Option.isSome_iff_exists.mp (hq _ (List.getElem_mem hi))
    refine ⟨cohort_definitions[i], cohort_names[i], q, hd, hnm, hqd, ?_⟩
    apply mkRows_getElem?
    · simp [cohort_ids, hi]
    · exact hnm
    · exact hd
    · rw [hsidx i, hd]
      simpa using hqd

theorem claim_C6_witness :
    ∃ rows, cohort_definition_set circeNat 12 34 [5, 6] ["A", "B"] = .ok rows
      ∧ rows.length = ([5, 6] : List Nat).length
      ∧ ∀ i, i < ([5, 6] : List Nat).length →
          ∃ d nm q, ([5, 6] : List Nat)[i]? = some d
            ∧ (["A", "B"] : List String)[i]? = some nm
            ∧ _create_cohort_query circeNat d = some q
            ∧ rows[i]? = some ⟨cohortIdAt 12 34 i, nm, d, q, none, true⟩ :=
  claim_C6 circeNat 12 34 [5, 6] ["A", "B"] rfl (by decide)

/-- A concrete instantiation of the external OHDSI environment, used by the
executable witnesses. -/
def envNat : OhdsiEnv Nat Nat Bool Nat Nat String Nat :=
  { circe := circeNat
    get_cohort_table_names := fun s => s
    create_temporal_covariate_settings := fun x => x
    read_csv := fun _ => 0
    to_json := fun _ => "df" }

/-- C7: on a successful run, the worker reads back exactly one output
artifact — the incidence-rate export in the exports directory — immediately
after the diagnostics call, and returns its serialization as the sole return
value. -/
theorem claim_C7 {J E O TC TCO TN Df Conn DS : Type}
    (env : OhdsiEnv J E O TC TCO TN Df) (connection : Conn)
    (meta_omop : OHDSIMetaData) (meta_run : RunMetaData)
    (cohort_definitions : List J) (cohort_names : List String)
    (temporal_covariate_settings : TC) (diagnostics_settings : DS)
    (rows : List (CohortDefRow J))
    (h : cohort_definition_set env.circe meta_run.node_id meta_run.task_id
        cohort_definitions cohort_names = .ok rows) :
    (cohort_diagnostics env connection meta_omop meta_run cohort_definitions
        cohort_names temporal_covariate_settings
        diagnostics_settings).events.filterMap readPath
      = [pathJoin (pathJoin meta_omop.export_folder "exports")
          "incidence_rate.csv"]
    ∧ (∃ e1 e2 e3, (cohort_diagnostics env connection meta_omop meta_run
          cohort_definitions cohort_names temporal_covariate_settings
          diagnostics_settings).events
        = [e1, e2, e3, WorkerEvent.readCsv
            (pathJoin (pathJoin meta_omop.export_folder "exports")
              "incidence_rate.csv")]
        ∧ isExecuteDiagnostics e3 = true)
    ∧ (cohort_diagnostics env connection meta_omop meta_run cohort_definitions
        cohort_names temporal_covariate_settings diagnostics_settings).result
      = .ok (env.to_json (env.read_csv
          (pathJoin (pathJoin meta_omop.export_folder "exports")
            "incidence_rate.csv"))) := by
  refine ⟨?_, ?_, ?_⟩
  · simp [cohort_diagnostics, h, readPath]
  · simp only [cohort_diagnostics, h]
    exact ⟨_, _, _, rfl, rfl⟩
  · simp [cohort_diagnostics, h]

theorem claim_C7_witness :
    (cohort_diagnostics envNat 0 ⟨"cdm", "res", "exp"⟩ ⟨12, 34⟩ [5, 6]
        ["A", "B"] 0 0).result
      = .ok (envNat.to_json (envNat.read_csv
          (pathJoin (pathJoin "exp" "exports") "incidence_rate.csv"))) :=
  (claim_C7 envNat 0 ⟨"cdm", "res", "exp"⟩ ⟨12, 34⟩ [5, 6] ["A", "B"] 0 0 _
    rfl).2.2

/-- C9: when the number of supplied cohort names differs from the number of
cohort definitions, the worker fails while constructing the work-item
description table: no table-creation, cohort-generation, diagnostics or read
call is made and the invocation raises. -/
theorem claim_C9 {J E O TC TCO TN Df Conn DS : Type}
    (env : OhdsiEnv J E O TC TCO TN Df) (connection : Conn)
    (meta_omop : OHDSIMetaData) (meta_run : RunMetaData)
    (cohort_definitions : List J) (cohort_names : List String)
    (temporal_covariate_settings : TC) (diagnostics_settings : DS)
    (hne : cohort_names.length ≠ cohort_definitions.length) :
    (cohort_diagnostics env connection meta_omop meta_run cohort_definitions
        cohort_names temporal_covariate_settings
        diagnostics_settings).events = []
    ∧ ∃ e, (cohort_diagnostics env connection meta_omop meta_run
        cohort_definitions cohort_names temporal_covariate_settings
        diagnostics_settings).result = .error e := by
  have herr : ∃ e, cohort_definition_set env.circe meta_run.node_id
      meta_run.task_id cohort_definitions cohort_names = .error e := by
    cases hall : allSome (cohort_definitions.map
        (fun c => _create_cohort_query env.circe c)) with
    | none => exact ⟨.indexError, by simp [cohort_definition_set, hall]⟩
    | some sqls => exact ⟨.valueError, by simp [cohort_definition_set, hall, hne]⟩
  obtain ⟨e, he⟩ := herr
  refine ⟨?_, e, ?_⟩ <;> simp [cohort_diagnostics, he]

theorem claim_C9_witness :
    (cohort_diagnostics envNat 0 ⟨"cdm", "res", "exp"⟩ ⟨12, 34⟩ [5, 6]
        ["A"] 0 0).events = []
    ∧ ∃ e, (cohort_diagnostics envNat 0 ⟨"cdm", "res", "exp"⟩ ⟨12, 34⟩ [5, 6]
        ["A"] 0 0).result = .error e :=
  claim_C9 envNat 0 ⟨"cdm", "res", "exp"⟩ ⟨12, 34⟩ [5, 6] ["A"] 0 0
    (by decide)

end V6Omop
